import Mathlib

/-!
Shallow embedding of the VibePlanner repository (src/main.py).

The program aggregates five content providers (Spotify playlists, YouTube
recipe videos, Google Books, OMDb movies, Google Places cafes) plus a
geocoder behind one orchestrator, vibe_planner.

Modelling conventions:
* HTTP traffic is replaced by oracles describing the outside world: one
  oracle value per request the source can issue.  Each fetch function then
  consumes the oracle outcome exactly the way the source consumes the
  parsed JSON body (same branch structure, same defaults).
* Latitude/longitude values are only threaded through the source, never
  computed with, so they are modelled as Int.
* A Python value that may be absent or null is an Option; Python string
  truthiness (None and the empty string are falsy) is truthyStr.
* Fetch helpers that can raise McpError return Except PFail; source
  functions that catch every exception internally and always return a
  value (fetch_omdb_movies, fetch_google_places_cafes, geocode_location)
  are total functions here, mirroring that they never raise.
* The fallback-loop fetchers additionally return the trace of search
  terms actually sent, and vibe_planner returns the trace of provider
  invocations it performed, so call-counting properties are statable.
-/

namespace VibePlanner

/-- Python string truthiness for an optional string: None and the empty
string are falsy, every other string is truthy. -/
def truthyStr : Option String → Bool
  | none => false
  | some s => !s.isEmpty

/-- Python blank test from the source guard
(not vibe_description or not vibe_description.strip()): the guard fires
exactly when every character of the string is whitespace. -/
def isBlank (s : String) : Bool := s.data.all Char.isWhitespace

/-- Structural contiguous-subsequence test on character lists. -/
def containsChars (needle : List Char) : List Char → Bool
  | [] => needle.isEmpty
  | c :: rest => needle.isPrefixOf (c :: rest) || containsChars needle rest

/-- Python substring test (needle in hay), used on lowercased vibes. -/
def strContains (hay needle : String) : Bool := containsChars needle.data hay.data

/-- Python str.lower, character by character. -/
def strLower (s : String) : String := String.mk (s.data.map Char.toLower)

/-- Failure payload of a raised McpError (its message). -/
abbrev PFail := String

/-! ### Normalized item types (the dictionaries each fetch builds) -/

/-- Item of fetch_spotify_playlists: name, external spotify link, image url. -/
structure PlaylistItem where
  name : String
  link : String
  image : String
deriving DecidableEq, Repr

/-- Item of fetch_youtube_recipes: title and watch link. -/
structure VideoItem where
  title : String
  link : String
deriving DecidableEq, Repr

/-- Item of fetch_google_books: title, authors, info link.  The source
inserts volumeInfo fields without defaults, so title and link stay
optional. -/
structure BookItem where
  title : Option String
  authors : List String
  link : Option String
deriving DecidableEq, Repr

/-- Item of fetch_omdb_movies: Title, Year, Type with Unknown defaults. -/
structure MovieItem where
  title : String
  year : String
  type : String
deriving DecidableEq, Repr

/-- Item of fetch_google_places_cafes.  The numeric rating is only carried
for display, so it is modelled by its display string. -/
structure CafeItem where
  name : String
  address : String
  rating : String
  maps_link : String
  search_strategy : String
deriving DecidableEq, Repr

/-! ### Spotify (fetch_spotify_token, fetch_spotify_playlists) -/

/-- Outcome of fetch_spotify_token: missing client credentials return None
without any request; any transport/JSON problem raises; otherwise the
token field of the JSON body (absent key gives none). -/
inductive SpotifyTokenResult
  | noCreds
  | failure
  | ok (accessToken : Option String)
deriving DecidableEq

/-- One raw playlist object of the search response: optional name,
optional external_urls.spotify, and the images array projected to its
optional url fields. -/
structure RawPlaylist where
  name : Option String
  spotifyUrl : Option String
  imageUrls : List (Option String)
deriving DecidableEq, Repr

/-- Outcome of the Spotify search request: HTTP error (raises), invalid
JSON (raises), a null body (returns empty), or the playlists.items array
whose entries may be null. -/
inductive SpotifySearchResult
  | httpFailure
  | jsonFailure
  | noneData
  | ok (items : List (Option RawPlaylist))
deriving DecidableEq

/-- Normalization loop of fetch_spotify_playlists: null entries are
skipped (if p:), missing fields get defaults Unknown / empty string, the
image is the url of the first entry of (images or one empty dict). -/
def spotifyNormalize : List (Option RawPlaylist) → List PlaylistItem
  | [] => []
  | none :: rest => spotifyNormalize rest
  | some p :: rest =>
    { name := p.name.getD "Unknown"
      link := p.spotifyUrl.getD ""
      image :=
        match p.imageUrls with
        | [] => ""
        | u :: _ => u.getD "" } :: spotifyNormalize rest

/-- fetch_spotify_playlists.  The limit parameter of the source only
lands in the request URL, so it does not appear here. -/
def fetch_spotify_playlists (tok : SpotifyTokenResult) (search : SpotifySearchResult) :
    Except PFail (List PlaylistItem) :=
  match tok with
  | .noCreds => .ok []
  | .failure => .error "Spotify token error"
  | .ok t =>
    if !truthyStr t then .ok []
    else
      match search with
      | .httpFailure => .error "Spotify HTTP error"
      | .jsonFailure => .error "Invalid JSON from Spotify search"
      | .noneData => .ok []
      | .ok items => .ok (spotifyNormalize items)

/-! ### YouTube (fetch_youtube_recipes) -/

/-- One raw search item: id.videoId and snippet.title, both optional. -/
structure RawVideo where
  videoId : Option String
  title : Option String
deriving DecidableEq, Repr

/-- Outcome of the YouTube search request. -/
inductive YoutubeResult
  | httpFailure
  | jsonFailure
  | noneData
  | ok (items : List (Option RawVideo))
deriving DecidableEq

/-- Normalization loop of fetch_youtube_recipes: null entries are skipped,
and an item is kept only when videoId and title are both truthy
(if vid_id and title:). -/
def youtubeNormalize : List (Option RawVideo) → List VideoItem
  | [] => []
  | none :: rest => youtubeNormalize rest
  | some r :: rest =>
    match r.videoId, r.title with
    | some v, some t =>
      if v.isEmpty || t.isEmpty then youtubeNormalize rest
      else { title := t, link := "https://www.youtube.com/watch?v=" ++ v } :: youtubeNormalize rest
    | _, _ => youtubeNormalize rest

/-- fetch_youtube_recipes: a falsy API key returns empty with no request. -/
def fetch_youtube_recipes (key : Option String) (resp : YoutubeResult) :
    Except PFail (List VideoItem) :=
  if !truthyStr key then .ok []
  else
    match resp with
    | .httpFailure => .error "YouTube HTTP error"
    | .jsonFailure => .error "Invalid JSON from YouTube"
    | .noneData => .ok []
    | .ok items => .ok (youtubeNormalize items)

/-! ### Google Books (fetch_google_books) -/

/-- One raw volume projected to its volumeInfo fields.  Authors default
to the empty list in the source (info.get with default). -/
structure RawBook where
  title : Option String
  authors : List String
  link : Option String
deriving DecidableEq, Repr

/-- Outcome of the Books request.  failure stands for every raising path:
HTTP error, invalid JSON, a null body or null item entries (those hit an
attribute error that the catch-all except turns into a raise). -/
inductive BooksResult
  | failure
  | ok (items : List RawBook)
deriving DecidableEq

/-- fetch_google_books: no key gate, no per-item dropping; volumeInfo
fields are copied as they are. -/
def fetch_google_books (resp : BooksResult) : Except PFail (List BookItem) :=
  match resp with
  | .failure => .error "Google Books fetch error"
  | .ok items =>
    .ok (items.map fun b => { title := b.title, authors := b.authors, link := b.link })

/-! ### OMDb movies (fetch_omdb_movies) -/

/-- One raw movie of the Search array: Title, Year, Type, all optional. -/
structure RawMovie where
  title : Option String
  year : Option String
  type : Option String
deriving DecidableEq, Repr

/-- Outcome of one OMDb request for one search term: transport error,
invalid JSON, null body, a Response equal to False with its Error message
(this is also how OMDb reports an invalid API key), or the Search array
(absent key gives the empty array). -/
inductive OmdbResult
  | httpFailure
  | jsonFailure
  | noneData
  | respFalse (err : String)
  | search (results : List (Option RawMovie))
deriving DecidableEq

/-- Mood bucket table of fetch_omdb_movies: an if/elif chain over the
lowercased vibe, case-insensitive substring matching, first match wins. -/
def moodTerms (vibe : String) : List String :=
  let v := strLower vibe
  if strContains v "cozy" || strContains v "rainy" then ["romantic comedy", "drama"]
  else if strContains v "adventure" || strContains v "exciting" then ["action", "adventure"]
  else if strContains v "scary" || strContains v "spooky" then ["horror"]
  else if strContains v "funny" || strContains v "comedy" then ["comedy"]
  else []

/-- Candidate search terms of fetch_omdb_movies: the vibe, the vibe with
" movie" appended, then the matching mood bucket (if any). -/
def omdbSearchTerms (vibe : String) : List String :=
  [vibe, vibe ++ " movie"] ++ moodTerms vibe

/-- Normalization loop of fetch_omdb_movies: null entries are skipped
(if m:), missing fields get Unknown defaults. -/
def omdbNormalize : List (Option RawMovie) → List MovieItem
  | [] => []
  | none :: rest => omdbNormalize rest
  | some m :: rest =>
    { title := m.title.getD "Unknown Title"
      year := m.year.getD "Unknown"
      type := m.type.getD "Unknown" } :: omdbNormalize rest

/-- Candidate loop of fetch_omdb_movies.  Every failure outcome and every
empty (truncated) Search array falls through to the next term (the source
only ever uses continue); a non-empty truncated array is normalized and
returned at once.  Also returns the list of terms actually requested. -/
def omdbLoop (resp : String → OmdbResult) (limit : Nat) :
    List String → List MovieItem × List String
  | [] => ([], [])
  | term :: rest =>
    match resp term with
    | .search rs =>
      if (rs.take limit).isEmpty then
        let p := omdbLoop resp limit rest
        (p.1, term :: p.2)
      else
        (omdbNormalize (rs.take limit), [term])
    | _ =>
      let p := omdbLoop resp limit rest
      (p.1, term :: p.2)

/-- fetch_omdb_movies: a falsy API key returns empty with no request;
otherwise the candidate loop over omdbSearchTerms. -/
def fetch_omdb_movies (key : Option String) (resp : String → OmdbResult)
    (vibe : String) (limit : Nat) : List MovieItem × List String :=
  if !truthyStr key then ([], [])
  else omdbLoop resp limit (omdbSearchTerms vibe)

/-! ### Google Places cafes (fetch_google_places_cafes) -/

/-- One raw place of the results array. -/
structure RawCafe where
  placeId : Option String
  name : Option String
  vicinity : Option String
  formattedAddress : Option String
  rating : Option String
deriving DecidableEq, Repr

/-- Outcome of one Places request for one strategy: transport error,
invalid JSON, null body (the logging line then hits an attribute error
which the catch-all except turns into continue), or a status string with
the results array. -/
inductive PlacesResult
  | httpFailure
  | jsonFailure
  | noneData
  | ok (status : String) (results : List (Option RawCafe))
deriving DecidableEq

/-- The four fixed search strategies of fetch_google_places_cafes, in
order: keyword paired with a place type. -/
def placesStrategies (vibe : String) : List (String × String) :=
  [(vibe ++ " cafe", "cafe"), ("cafe", "cafe"), ("coffee", "cafe"), ("restaurant", "restaurant")]

/-- Normalization loop of fetch_google_places_cafes: null entries are
skipped (if c:), the address falls back from vicinity to
formatted_address to Unknown Address, the maps link is built only from a
truthy place_id, and the winning keyword is recorded. -/
def cafeNormalize (keyword : String) : List (Option RawCafe) → List CafeItem
  | [] => []
  | none :: rest => cafeNormalize keyword rest
  | some c :: rest =>
    { name := c.name.getD "Unknown Cafe"
      address :=
        match c.vicinity with
        | some v => v
        | none => c.formattedAddress.getD "Unknown Address"
      rating := c.rating.getD "No rating"
      maps_link :=
        if (c.placeId.getD "").isEmpty then ""
        else "https://www.google.com/maps/place/?q=place_id:" ++ c.placeId.getD ""
      search_strategy := keyword } :: cafeNormalize keyword rest

/-- Strategy loop of fetch_google_places_cafes.  Status OK with a
non-empty truncated results array returns its normalization; status OK
with an empty truncation, ZERO_RESULTS, unknown statuses and every
transport/JSON failure fall through to the next strategy; REQUEST_DENIED
and OVER_QUERY_LIMIT return empty immediately, abandoning the remaining
strategies.  Also returns the list of keywords actually requested. -/
def placesLoop (resp : String → PlacesResult) (limit : Nat) :
    List (String × String) → List CafeItem × List String
  | [] => ([], [])
  | (keyword, _ty) :: rest =>
    match resp keyword with
    | .ok status results =>
      if status = "OK" then
        if (results.take limit).isEmpty then
          let p := placesLoop resp limit rest
          (p.1, keyword :: p.2)
        else
          (cafeNormalize keyword (results.take limit), [keyword])
      else if status = "ZERO_RESULTS" then
        let p := placesLoop resp limit rest
        (p.1, keyword :: p.2)
      else if status = "REQUEST_DENIED" then ([], [keyword])
      else if status = "OVER_QUERY_LIMIT" then ([], [keyword])
      else
        let p := placesLoop resp limit rest
        (p.1, keyword :: p.2)
    | _ =>
      let p := placesLoop resp limit rest
      (p.1, keyword :: p.2)

/-- fetch_google_places_cafes: a falsy API key returns empty with no
request; otherwise the strategy loop.  The coordinates of the source
signature only land in the request URL, so they do not appear here. -/
def fetch_google_places_cafes (key : Option String) (resp : String → PlacesResult)
    (vibe : String) (limit : Nat) : List CafeItem × List String :=
  if !truthyStr key then ([], [])
  else placesLoop resp limit (placesStrategies vibe)

/-! ### Geocoding (geocode_location) -/

/-- First geocoding candidate projected to geometry.location.lat and
geometry.location.lng, both optional. -/
structure GeoCandidate where
  lat : Option Int
  lng : Option Int
deriving DecidableEq, Repr

/-- Outcome of the geocoding request. -/
inductive GeoResult
  | httpFailure
  | jsonFailure
  | noneData
  | ok (status : String) (results : List GeoCandidate)
deriving DecidableEq

/-- geocode_location: every failure path of the source returns None (the
function never raises); a status other than OK, an empty results array or
missing coordinates in the first candidate also give None; otherwise the
first candidate coordinates. -/
def geocode_location (key : Option String) (resp : GeoResult) : Option (Int × Int) :=
  if !truthyStr key then none
  else
    match resp with
    | .httpFailure => none
    | .jsonFailure => none
    | .noneData => none
    | .ok status results =>
      if status = "OK" then
        match results with
        | [] => none
        | c :: _ =>
          match c.lat, c.lng with
          | some a, some b => some (a, b)
          | _, _ => none
      else none

/-! ### The orchestrator (vibe_planner) -/

/-- The location_info dictionary variants the orchestrator can build.
geocodingException corresponds to the handler at source lines 492-498; it
is dead code because geocode_location returns None on every failure path
instead of raising, so the embedding never constructs it. -/
inductive LocationInfo
  | empty
  | geocoded (providedLocation : String) (lat lng : Int)
  | failedGeocoding (providedLocation : String)
  | geocodingException (providedLocation : String)
  | providedCoordinates (lat lng : Int)
deriving DecidableEq, Repr

/-- One provider invocation performed by the orchestrator. -/
inductive CallTag
  | spotify
  | youtube
  | books
  | omdb
  | geocode (location : String)
  | places (lat lng : Int)
deriving DecidableEq, Repr

/-- The debug_info counts of the response. -/
structure Counts where
  spotify : Nat
  youtube : Nat
  books : Nat
  movies : Nat
  cafes : Nat
deriving DecidableEq, Repr

/-- The dictionary vibe_planner returns. -/
structure AggregatedResponse where
  vibe : String
  spotify_playlists : List PlaylistItem
  youtube_recipes : List VideoItem
  books : List BookItem
  movies : List MovieItem
  cafes : List CafeItem
  location_info : LocationInfo
  debug_info : Counts
deriving DecidableEq, Repr

/-- The McpError kinds vibe_planner can raise.  internalError corresponds
to the catch-all at source lines 531-532; nothing inside the embedded
body can raise, so the embedding never constructs it. -/
inductive VibeError
  | invalidParams (msg : String)
  | internalError (msg : String)
deriving DecidableEq, Repr

/-- The five fetch helpers and the geocoder, as seen from the call sites
inside vibe_planner.  The first four can raise; fetch_google_places_cafes
can be given an Except as well since the orchestrator wraps it in
try/except; geocode_location is total. -/
structure Env where
  spotify : String → Except PFail (List PlaylistItem)
  youtube : String → Except PFail (List VideoItem)
  books : String → Except PFail (List BookItem)
  omdb : String → Except PFail (List MovieItem)
  places : String → Int → Int → Except PFail (List CafeItem)
  geocode : String → Option (Int × Int)

/-- The per-provider try/except of vibe_planner: any raised error becomes
the empty list for that provider. -/
def isolate {α : Type} (r : Except PFail (List α)) : List α :=
  match r with
  | .ok l => l
  | .error _ => []

/-- Location handling of vibe_planner (source lines 473-503): returns
final latitude, final longitude, the location_info value, and the trace
of geocoder invocations. -/
def resolveLocation (geocode : String → Option (Int × Int)) (location : Option String)
    (latitude longitude : Option Int) :
    Option Int × Option Int × LocationInfo × List CallTag :=
  if (latitude.isNone || longitude.isNone) && truthyStr location then
    let loc := location.getD ""
    match geocode loc with
    | some c => (some c.1, some c.2, .geocoded loc c.1 c.2, [.geocode loc])
    | none => (latitude, longitude, .failedGeocoding loc, [.geocode loc])
  else
    match latitude, longitude with
    | some la, some lo => (some la, some lo, .providedCoordinates la lo, [])
    | _, _ => (latitude, longitude, .empty, [])

/-- Body of vibe_planner after the input guard: the four isolated
provider fetches, location resolution, the conditional cafe fetch, and
the assembled response, together with the trace of invocations. -/
def vibe_planner_core (env : Env) (vibe : String) (location : Option String)
    (latitude longitude : Option Int) : AggregatedResponse × List CallTag :=
  let spotify_res := isolate (env.spotify vibe)
  let youtube_res := isolate (env.youtube vibe)
  let books_res := isolate (env.books vibe)
  let movies_res := isolate (env.omdb vibe)
  let r := resolveLocation env.geocode location latitude longitude
  let cafes_pair :=
    match r.1, r.2.1 with
    | some la, some lo => (isolate (env.places vibe la lo), [CallTag.places la lo])
    | _, _ => ([], [])
  ({ vibe := vibe
     spotify_playlists := spotify_res
     youtube_recipes := youtube_res
     books := books_res
     movies := movies_res
     cafes := cafes_pair.1
     location_info := r.2.2.1
     debug_info :=
       { spotify := spotify_res.length
         youtube := youtube_res.length
         books := books_res.length
         movies := movies_res.length
         cafes := cafes_pair.1.length } },
   [CallTag.spotify, CallTag.youtube, CallTag.books, CallTag.omdb] ++ r.2.2.2 ++ cafes_pair.2)

/-- vibe_planner: the blank-input guard raises INVALID_PARAMS before any
provider is touched; otherwise the body always returns a response. -/
def vibe_planner (env : Env) (vibe : String) (location : Option String)
    (latitude longitude : Option Int) :
    Except VibeError AggregatedResponse × List CallTag :=
  if isBlank vibe then
    (.error (.invalidParams "vibe_description is required and must not be empty."), [])
  else
    (.ok (vibe_planner_core env vibe location latitude longitude).1,
     (vibe_planner_core env vibe location latitude longitude).2)

/-! ### The production composition of the orchestrator with the real
fetch helpers -/

/-- The raw outside world of one whole request: the credentials read at
startup and the response to every request the fetch helpers can issue.
GOOGLE_MAPS_API_KEY serves both the Places fetch and the geocoder, as in
the source. -/
structure RawEnv where
  spotifyToken : SpotifyTokenResult
  spotifySearch : String → SpotifySearchResult
  youtubeKey : Option String
  youtubeResp : String → YoutubeResult
  booksResp : String → BooksResult
  omdbKey : Option String
  omdbResp : String → OmdbResult
  googleMapsKey : Option String
  placesResp : String → PlacesResult
  geoResp : String → GeoResult

/-- The Env that vibe_planner actually runs against: each call site uses
the corresponding fetch helper with the default limit 5, exactly as the
source calls them with no explicit limit argument. -/
def mkEnv (raw : RawEnv) : Env where
  spotify := fun v => fetch_spotify_playlists raw.spotifyToken (raw.spotifySearch v)
  youtube := fun v => fetch_youtube_recipes raw.youtubeKey (raw.youtubeResp v)
  books := fun v => fetch_google_books (raw.booksResp v)
  omdb := fun v => .ok (fetch_omdb_movies raw.omdbKey raw.omdbResp v 5).1
  places := fun v _la _lo => .ok (fetch_google_places_cafes raw.googleMapsKey raw.placesResp v 5).1
  geocode := fun loc => geocode_location raw.googleMapsKey (raw.geoResp loc)

/-! ### Concrete environments and oracles used to instantiate theorems -/

/-- An environment where every provider succeeds with no items and the
geocoder finds nothing. -/
def okEnv : Env where
  spotify := fun _ => .ok []
  youtube := fun _ => .ok []
  books := fun _ => .ok []
  omdb := fun _ => .ok []
  places := fun _ _ _ => .ok []
  geocode := fun _ => none

/-- Like okEnv but the geocoder resolves Seattle. -/
def geoEnv : Env :=
  { okEnv with geocode := fun loc => if loc = "Seattle" then some (47, -122) else none }

/-- OMDb oracle for the scary-vibe fallback scenario: empty Search arrays
for the first two candidates, one movie for horror. -/
def scaryResp : String → OmdbResult := fun t =>
  if t = "horror" then .search [some { title := some "Halloween", year := some "1978", type := some "movie" }]
  else .search []

/-- OMDb oracle reporting an invalid API key (a terminal failure class)
for the first candidate and a result for the second. -/
def badKeyResp : String → OmdbResult := fun t =>
  if t = "bad vibes" then .respFalse "Invalid API key!"
  else if t = "bad vibes movie" then
    .search [some { title := some "Bad Vibes", year := some "2001", type := some "movie" }]
  else .search []

/-- Places oracle whose every request is denied. -/
def deniedPlacesResp : String → PlacesResult := fun _ => .ok "REQUEST_DENIED" []

/-- A raw world where every credential is absent or every request fails. -/
def trivRawEnv : RawEnv where
  spotifyToken := .noCreds
  spotifySearch := fun _ => .noneData
  youtubeKey := none
  youtubeResp := fun _ => .noneData
  booksResp := fun _ => .failure
  omdbKey := none
  omdbResp := fun _ => .httpFailure
  googleMapsKey := none
  placesResp := fun _ => .httpFailure
  geoResp := fun _ => .httpFailure

/-! ## Theorems -/

/-- On a non-blank vibe, vibe_planner runs its body. -/
theorem vibe_planner_not_blank {vibe : String} (h : isBlank vibe = false)
    (env : Env) (location : Option String) (latitude longitude : Option Int) :
    vibe_planner env vibe location latitude longitude =
      (.ok (vibe_planner_core env vibe location latitude longitude).1,
       (vibe_planner_core env vibe location latitude longitude).2) := by
  simp [vibe_planner, h]

/-- C2: a vibe description that is empty or whitespace-only makes
vibe_planner fail with the INVALID_PARAMS McpError, with an empty
invocation trace (zero network calls) and no partial response. -/
theorem C2_blank_input_rejected (env : Env) (vibe : String) (location : Option String)
    (latitude longitude : Option Int) (h : isBlank vibe = true) :
    vibe_planner env vibe location latitude longitude =
      (.error (.invalidParams "vibe_description is required and must not be empty."), []) := by
  simp [vibe_planner, h]

theorem C2_blank_input_rejected_witness :
    vibe_planner okEnv "   " none none none =
      (.error (.invalidParams "vibe_description is required and must not be empty."), []) :=
  C2_blank_input_rejected okEnv "   " none none none (by decide)

/-- C9: geocode_location is a total function (it never raises); it
returns none when the call fails, the body is malformed or null, the
status is not OK, the results are empty or the first candidate lacks
coordinates; and on success it returns the coordinates of the first
candidate of the results array. -/
theorem C9_geocode_first_candidate (key : Option String) :
    geocode_location key .httpFailure = none ∧
    geocode_location key .jsonFailure = none ∧
    geocode_location key .noneData = none ∧
    (∀ s rs, s ≠ "OK" → geocode_location key (.ok s rs) = none) ∧
    geocode_location key (.ok "OK" []) = none ∧
    (∀ (c : GeoCandidate) rs a b, truthyStr key = true → c.lat = some a → c.lng = some b →
      geocode_location key (.ok "OK" (c :: rs)) = some (a, b)) := by
  refine ⟨?_, ?_, ?_, ?_, ?_, ?_⟩
  · cases hk : truthyStr key <;> simp [geocode_location, hk]
  · cases hk : truthyStr key <;> simp [geocode_location, hk]
  · cases hk : truthyStr key <;> simp [geocode_location, hk]
  · intro s rs hs
    cases hk : truthyStr key <;> simp [geocode_location, hk, hs]
  · cases hk : truthyStr key <;> simp [geocode_location, hk]
  · intro c rs a b hk hla hlo
    simp [geocode_location, hk, hla, hlo]

theorem C9_geocode_first_candidate_witness :
    geocode_location (some "mapskey") (.ok "OK" [{ lat := some 47, lng := some (-122) }]) =
      some (47, -122) :=
  (C9_geocode_first_candidate (some "mapskey")).2.2.2.2.2
    { lat := some 47, lng := some (-122) } [] 47 (-122) (by decide) rfl rfl

/-- C3: for a vibe whose lowercased text contains scary and none of the
earlier-checked mood keywords (cozy, rainy, adventure, exciting), the
movie fallback candidates are exactly [vibe, vibe movie, horror] with
only that one bucket appended; the loop stops at the first candidate with
a non-empty result; and when the first two candidates return empty Search
arrays and the third returns one movie, the fetch returns exactly that
movie after exactly three requests. -/
theorem C3_scary_fallback_order (vibe key : String) (resp : String → OmdbResult)
    (m : RawMovie) (limit : Nat)
    (hkey : key.isEmpty = false) (hlim : 1 ≤ limit)
    (hscary : strContains (strLower vibe) "scary" = true)
    (hcozy : strContains (strLower vibe) "cozy" = false)
    (hrainy : strContains (strLower vibe) "rainy" = false)
    (hadv : strContains (strLower vibe) "adventure" = false)
    (hexc : strContains (strLower vibe) "exciting" = false)
    (h1 : resp vibe = .search [])
    (h2 : resp (vibe ++ " movie") = .search [])
    (h3 : resp "horror" = .search [some m]) :
    omdbSearchTerms vibe = [vibe, vibe ++ " movie", "horror"] ∧
    fetch_omdb_movies (some key) resp vibe limit =
      ([{ title := m.title.getD "Unknown Title", year := m.year.getD "Unknown",
          type := m.type.getD "Unknown" }],
       [vibe, vibe ++ " movie", "horror"]) ∧
    (∀ (resp2 : String → OmdbResult) (t : String) (rest : List String)
        (rs : List (Option RawMovie)),
      resp2 t = .search rs → (rs.take limit).isEmpty = false →
      omdbLoop resp2 limit (t :: rest) = (omdbNormalize (rs.take limit), [t])) := by
  have hterms : omdbSearchTerms vibe = [vibe, vibe ++ " movie", "horror"] := by
    simp [omdbSearchTerms, moodTerms, hscary, hcozy, hrainy, hadv, hexc]
  have htake : List.take limit [some m] = [some m] :=
    List.take_of_length_le (by simpa using hlim)
  refine ⟨hterms, ?_, ?_⟩
  · simp only [fetch_omdb_movies, truthyStr, hkey, Bool.not_false, if_true, hterms]
    simp [omdbLoop, h1, h2, h3, htake, omdbNormalize]
  · intro resp2 t rest rs hr he
    simp [omdbLoop, hr, he]

theorem C3_scary_fallback_order_witness :
    fetch_omdb_movies (some "omdbkey") scaryResp "scary night" 5 =
      ([{ title := "Halloween", year := "1978", type := "movie" }],
       ["scary night", "scary night movie", "horror"]) :=
  (C3_scary_fallback_order "scary night" "omdbkey" scaryResp
    { title := some "Halloween", year := some "1978", type := some "movie" } 5
    (by decide) (by decide) (by decide) (by decide) (by decide) (by decide) (by decide)
    (by decide) (by decide) (by decide)).2.1

/-- C4 counterexample: the OMDb candidate loop does NOT abandon the
remaining candidates on a terminal failure class.  With an oracle whose
first candidate reports Invalid API key (a provider-reported terminal
condition) and whose second candidate has a result, fetch_omdb_movies
requests the second candidate with the same broken credential and returns
its non-empty result, instead of returning the empty sequence
immediately as the claim states. -/
theorem C4_cex_omdb_retries_after_terminal_failure :
    fetch_omdb_movies (some "omdb") badKeyResp "bad vibes" 5 =
      ([{ title := "Bad Vibes", year := "2001", type := "movie" }],
       ["bad vibes", "bad vibes movie"]) ∧
    (fetch_omdb_movies (some "omdb") badKeyResp "bad vibes" 5).1 ≠ [] := by
  refine ⟨by decide, by decide⟩

/-- C4 amended: only the Places strategy loop short-circuits on a
terminal failure class: on status REQUEST_DENIED or OVER_QUERY_LIMIT it
abandons the remaining strategies and returns the empty sequence.  The
OMDb candidate loop never short-circuits: on a provider-reported error
(including invalid credentials, reported as Response False) it continues
with the next candidate. -/
theorem C4_amended_terminal_short_circuit (limit : Nat) :
    (∀ (resp : String → PlacesResult) (keyword ty : String)
        (rest : List (String × String)) (rs : List (Option RawCafe)) (st : String),
      st = "REQUEST_DENIED" ∨ st = "OVER_QUERY_LIMIT" → resp keyword = .ok st rs →
      placesLoop resp limit ((keyword, ty) :: rest) = ([], [keyword])) ∧
    (∀ (resp : String → OmdbResult) (term : String) (rest : List String) (err : String),
      resp term = .respFalse err →
      omdbLoop resp limit (term :: rest) =
        ((omdbLoop resp limit rest).1, term :: (omdbLoop resp limit rest).2)) := by
  constructor
  · intro resp keyword ty rest rs st hst hr
    rcases hst with hst | hst <;> subst hst <;> simp [placesLoop, hr]
  · intro resp term rest err hr
    simp [omdbLoop, hr]

theorem C4_amended_terminal_short_circuit_witness :
    placesLoop deniedPlacesResp 5 (placesStrategies "bad vibes") = ([], ["bad vibes cafe"]) :=
  (C4_amended_terminal_short_circuit 5).1 deniedPlacesResp "bad vibes cafe" "cafe"
    [("cafe", "cafe"), ("coffee", "cafe"), ("restaurant", "restaurant")] [] "REQUEST_DENIED"
    (Or.inl rfl) rfl

/-- Every item the YouTube normalization returns comes from a non-null
raw item whose videoId and title are both present and non-empty. -/
theorem youtubeNormalize_mem (items : List (Option RawVideo)) (v : VideoItem) :
    v ∈ youtubeNormalize items →
    ∃ r, some r ∈ items ∧ ∃ vid t, r.videoId = some vid ∧ r.title = some t ∧
      vid.isEmpty = false ∧ t.isEmpty = false ∧
      v = { title := t, link := "https://www.youtube.com/watch?v=" ++ vid } := by
  induction items with
  | nil => intro hv; simp [youtubeNormalize] at hv
  | cons head rest ih =>
    intro hv
    match head with
    | none =>
      rcases ih (by simpa [youtubeNormalize] using hv) with ⟨r, hr, hrest⟩
      exact ⟨r, List.mem_cons_of_mem _ hr, hrest⟩
    | some r0 =>
      cases hvid : r0.videoId with
      | none =>
        rcases ih (by simpa [youtubeNormalize, hvid] using hv) with ⟨r, hr, hrest⟩
        exact ⟨r, List.mem_cons_of_mem _ hr, hrest⟩
      | some vid =>
        cases htit : r0.title with
        | none =>
          rcases ih (by simpa [youtubeNormalize, hvid, htit] using hv) with ⟨r, hr, hrest⟩
          exact ⟨r, List.mem_cons_of_mem _ hr, hrest⟩
        | some t =>
          by_cases he : (vid.isEmpty || t.isEmpty) = true
          · rcases ih (by simpa [youtubeNormalize, hvid, htit, he] using hv) with ⟨r, hr, hrest⟩
            exact ⟨r, List.mem_cons_of_mem _ hr, hrest⟩
          · have hf : vid.isEmpty = false ∧ t.isEmpty = false := by simpa using he
            rcases List.mem_cons.mp (by simpa [youtubeNormalize, hvid, htit, he] using hv)
              with hv1 | hv1
            · exact ⟨r0, List.mem_cons_self _ _, vid, t, hvid, htit, hf.1, hf.2, hv1⟩
            · rcases ih hv1 with ⟨r, hr, hrest⟩
              exact ⟨r, List.mem_cons_of_mem _ hr, hrest⟩

/-- C7 counterexample: an item missing its required display field is not
dropped.  The Spotify fetch keeps a playlist whose name is absent and
substitutes the placeholder Unknown (a default written by this code, not
supplied by the provider), and the Books fetch keeps an item whose title
is absent. -/
theorem C7_cex_placeholder_not_dropped :
    fetch_spotify_playlists (.ok (some "tok"))
        (.ok [some { name := none, spotifyUrl := none, imageUrls := [] }]) =
      .ok [{ name := "Unknown", link := "", image := "" }] ∧
    fetch_google_books (.ok [{ title := none, authors := [], link := none }]) =
      .ok [{ title := none, authors := [], link := none }] := by
  exact ⟨rfl, rfl⟩

/-- C7 amended: only the YouTube fetch drops items whose display fields
are missing or empty; the Spotify, Movies and Places fetches keep such
items and substitute the client-side placeholders Unknown, Unknown
Title / Unknown, and Unknown Cafe / Unknown Address / No rating; the
Books fetch keeps items with an absent title unchanged. -/
theorem C7_amended_display_field_handling (items : List (Option RawVideo)) (v : VideoItem)
    (hv : v ∈ youtubeNormalize items) :
    (∃ r, some r ∈ items ∧ ∃ vid t, r.videoId = some vid ∧ r.title = some t ∧
      vid.isEmpty = false ∧ t.isEmpty = false ∧
      v = { title := t, link := "https://www.youtube.com/watch?v=" ++ vid }) ∧
    spotifyNormalize [some { name := none, spotifyUrl := none, imageUrls := [] }] =
      [{ name := "Unknown", link := "", image := "" }] ∧
    omdbNormalize [some { title := none, year := none, type := none }] =
      [{ title := "Unknown Title", year := "Unknown", type := "Unknown" }] ∧
    cafeNormalize "kw"
      [some { placeId := none, name := none, vicinity := none, formattedAddress := none, rating := none }] =
      [{ name := "Unknown Cafe", address := "Unknown Address", rating := "No rating",
         maps_link := "", search_strategy := "kw" }] ∧
    fetch_google_books (.ok [{ title := none, authors := ["a"], link := none }]) =
      .ok [{ title := none, authors := ["a"], link := none }] :=
  ⟨youtubeNormalize_mem items v hv, rfl, rfl, rfl, rfl⟩

theorem C7_amended_display_field_handling_witness :
    ∃ r, some r ∈ [some ({ videoId := some "abc", title := some "Pasta" } : RawVideo)] ∧
      ∃ vid t, r.videoId = some vid ∧ r.title = some t ∧
        vid.isEmpty = false ∧ t.isEmpty = false ∧
        ({ title := "Pasta", link := "https://www.youtube.com/watch?v=abc" } : VideoItem) =
          { title := t, link := "https://www.youtube.com/watch?v=" ++ vid } :=
  (C7_amended_display_field_handling [some { videoId := some "abc", title := some "Pasta" }]
    { title := "Pasta", link := "https://www.youtube.com/watch?v=abc" } (by decide)).1

/-- The movie normalization never lengthens its input. -/
theorem omdbNormalize_length_le (l : List (Option RawMovie)) :
    (omdbNormalize l).length ≤ l.length := by
  induction l with
  | nil => simp [omdbNormalize]
  | cons head rest ih =>
    cases head <;> simp [omdbNormalize] <;> omega

/-- The cafe normalization never lengthens its input. -/
theorem cafeNormalize_length_le (kw : String) (l : List (Option RawCafe)) :
    (cafeNormalize kw l).length ≤ l.length := by
  induction l with
  | nil => simp [cafeNormalize]
  | cons head rest ih =>
    cases head <;> simp [cafeNormalize] <;> omega

/-- The OMDb candidate loop returns at most limit items. -/
theorem omdbLoop_length_le (resp : String → OmdbResult) (limit : Nat) (terms : List String) :
    (omdbLoop resp limit terms).1.length ≤ limit := by
  induction terms with
  | nil => simp [omdbLoop]
  | cons t rest ih =>
    cases hr : resp t with
    | search rs =>
      by_cases he : (rs.take limit).isEmpty
      · simpa [omdbLoop, hr, he] using ih
      · have h1 : (omdbNormalize (rs.take limit)).length ≤ (rs.take limit).length :=
          omdbNormalize_length_le _
        have h2 : (rs.take limit).length ≤ limit := by
          rw [List.length_take]; exact min_le_left _ _
        simpa [omdbLoop, hr, he] using h1.trans h2
    | httpFailure => simpa [omdbLoop, hr] using ih
    | jsonFailure => simpa [omdbLoop, hr] using ih
    | noneData => simpa [omdbLoop, hr] using ih
    | respFalse err => simpa [omdbLoop, hr] using ih

/-- The Places strategy loop returns at most limit items. -/
theorem placesLoop_length_le (resp : String → PlacesResult) (limit : Nat)
    (strategies : List (String × String)) :
    (placesLoop resp limit strategies).1.length ≤ limit := by
  induction strategies with
  | nil => simp [placesLoop]
  | cons s rest ih =>
    obtain ⟨keyword, ty⟩ := s
    cases hr : resp keyword with
    | ok status results =>
      by_cases hok : status = "OK"
      · subst hok
        by_cases he : (results.take limit).isEmpty
        · simpa [placesLoop, hr, he] using ih
        · have h1 : (cafeNormalize keyword (results.take limit)).length ≤
              (results.take limit).length := cafeNormalize_length_le _ _
          have h2 : (results.take limit).length ≤ limit := by
            rw [List.length_take]; exact min_le_left _ _
          simpa [placesLoop, hr, he] using h1.trans h2
      · by_cases hz : status = "ZERO_RESULTS"
        · subst hz; simpa [placesLoop, hr] using ih
        · by_cases hd : status = "REQUEST_DENIED"
          · subst hd; simp [placesLoop, hr]
          · by_cases hq : status = "OVER_QUERY_LIMIT"
            · subst hq; simp [placesLoop, hr]
            · simpa [placesLoop, hr, hok, hz, hd, hq] using ih
    | httpFailure => simpa [placesLoop, hr] using ih
    | jsonFailure => simpa [placesLoop, hr] using ih
    | noneData => simpa [placesLoop, hr] using ih

/-- The movie fetch returns at most limit items. -/
theorem fetch_omdb_movies_length_le (key : Option String) (resp : String → OmdbResult)
    (vibe : String) (limit : Nat) :
    (fetch_omdb_movies key resp vibe limit).1.length ≤ limit := by
  rw [fetch_omdb_movies]
  by_cases hk : truthyStr key
  · simpa [hk] using omdbLoop_length_le resp limit (omdbSearchTerms vibe)
  · simp [hk]

/-- The cafe fetch returns at most limit items. -/
theorem fetch_google_places_cafes_length_le (key : Option String)
    (resp : String → PlacesResult) (vibe : String) (limit : Nat) :
    (fetch_google_places_cafes key resp vibe limit).1.length ≤ limit := by
  rw [fetch_google_places_cafes]
  by_cases hk : truthyStr key
  · simpa [hk] using placesLoop_length_le resp limit (placesStrategies vibe)
  · simp [hk]

/-- C10: the Movies and Places fetches each return at most limit items
(the limit truncation of the raw result array), and vibe_planner calls
them with the default limit 5, so the movies and cafes lists of every
returned response have length at most 5. -/
theorem C10_limit_bounds :
    (∀ key resp vibe limit, (fetch_omdb_movies key resp vibe limit).1.length ≤ limit) ∧
    (∀ key resp vibe limit, (fetch_google_places_cafes key resp vibe limit).1.length ≤ limit) ∧
    (∀ (raw : RawEnv) (vibe : String) (location : Option String)
        (latitude longitude : Option Int) (r : AggregatedResponse) (tr : List CallTag),
      vibe_planner (mkEnv raw) vibe location latitude longitude = (.ok r, tr) →
      r.movies.length ≤ 5 ∧ r.cafes.length ≤ 5) := by
  refine ⟨fun key resp vibe limit => fetch_omdb_movies_length_le key resp vibe limit,
    fun key resp vibe limit => fetch_google_places_cafes_length_le key resp vibe limit,
    ?_⟩
  intro raw vibe location latitude longitude r tr h
  by_cases hb : isBlank vibe
  · simp [vibe_planner, hb] at h
  · rw [vibe_planner_not_blank (Bool.eq_false_iff.mpr hb)] at h
    obtain ⟨h1, _⟩ := Prod.mk.injEq .. ▸ h
    obtain rfl := (Except.ok.injEq _ _).mp h1
    constructor
    · simpa [vibe_planner_core, mkEnv, isolate] using
        fetch_omdb_movies_length_le raw.omdbKey raw.omdbResp vibe 5
    · show (vibe_planner_core (mkEnv raw) vibe location latitude longitude).1.cafes.length ≤ 5
      rw [vibe_planner_core]
      rcases hR : resolveLocation (mkEnv raw).geocode location latitude longitude
        with ⟨fla, flo, info, gtr⟩
      cases fla with
      | none => simp
      | some la =>
        cases flo with
        | none => simp
        | some lo =>
          simpa [mkEnv, isolate] using
            fetch_google_places_cafes_length_le raw.googleMapsKey raw.placesResp vibe 5

theorem C10_limit_bounds_witness :
    ({ vibe := "x", spotify_playlists := [], youtube_recipes := [], books := [], movies := [],
       cafes := [], location_info := .empty, debug_info := ⟨0, 0, 0, 0, 0⟩ } :
      AggregatedResponse).movies.length ≤ 5 ∧
    ({ vibe := "x", spotify_playlists := [], youtube_recipes := [], books := [], movies := [],
       cafes := [], location_info := .empty, debug_info := ⟨0, 0, 0, 0, 0⟩ } :
      AggregatedResponse).cafes.length ≤ 5 :=
  C10_limit_bounds.2.2 trivRawEnv "x" none none none
    { vibe := "x", spotify_playlists := [], youtube_recipes := [], books := [], movies := [],
      cafes := [], location_info := .empty, debug_info := ⟨0, 0, 0, 0, 0⟩ }
    [.spotify, .youtube, .books, .omdb] rfl

/-- C1: for a non-blank vibe, a failure raised by the Music, Videos,
Books or Movies fetch is caught by the orchestrator and becomes the empty
list for that provider only: the call still returns a structured
response whose failing slot is empty, and every other slot (including the
cafes and the location info) is the same as in the run where all other
inputs are identical. -/
theorem C1_provider_failure_isolated (env : Env) (vibe : String) (location : Option String)
    (latitude longitude : Option Int) (f : PFail) (h : isBlank vibe = false) :
    (Except.map AggregatedResponse.spotify_playlists
        (vibe_planner { env with spotify := fun _ => .error f }
          vibe location latitude longitude).1 = .ok [] ∧
     Except.map AggregatedResponse.youtube_recipes
        (vibe_planner { env with spotify := fun _ => .error f }
          vibe location latitude longitude).1 =
       Except.map AggregatedResponse.youtube_recipes
        (vibe_planner env vibe location latitude longitude).1 ∧
     Except.map AggregatedResponse.books
        (vibe_planner { env with spotify := fun _ => .error f }
          vibe location latitude longitude).1 =
       Except.map AggregatedResponse.books
        (vibe_planner env vibe location latitude longitude).1 ∧
     Except.map AggregatedResponse.movies
        (vibe_planner { env with spotify := fun _ => .error f }
          vibe location latitude longitude).1 =
       Except.map AggregatedResponse.movies
        (vibe_planner env vibe location latitude longitude).1 ∧
     Except.map AggregatedResponse.cafes
        (vibe_planner { env with spotify := fun _ => .error f }
          vibe location latitude longitude).1 =
       Except.map AggregatedResponse.cafes
        (vibe_planner env vibe location latitude longitude).1 ∧
     Except.map AggregatedResponse.location_info
        (vibe_planner { env with spotify := fun _ => .error f }
          vibe location latitude longitude).1 =
       Except.map AggregatedResponse.location_info
        (vibe_planner env vibe location latitude longitude).1) ∧
    (Except.map AggregatedResponse.youtube_recipes
        (vibe_planner { env with youtube := fun _ => .error f }
          vibe location latitude longitude).1 = .ok [] ∧
     Except.map AggregatedResponse.spotify_playlists
        (vibe_planner { env with youtube := fun _ => .error f }
          vibe location latitude longitude).1 =
       Except.map AggregatedResponse.spotify_playlists
        (vibe_planner env vibe location latitude longitude).1 ∧
     Except.map AggregatedResponse.books
        (vibe_planner { env with youtube := fun _ => .error f }
          vibe location latitude longitude).1 =
       Except.map AggregatedResponse.books
        (vibe_planner env vibe location latitude longitude).1 ∧
     Except.map AggregatedResponse.movies
        (vibe_planner { env with youtube := fun _ => .error f }
          vibe location latitude longitude).1 =
       Except.map AggregatedResponse.movies
        (vibe_planner env vibe location latitude longitude).1 ∧
     Except.map AggregatedResponse.cafes
        (vibe_planner { env with youtube := fun _ => .error f }
          vibe location latitude longitude).1 =
       Except.map AggregatedResponse.cafes
        (vibe_planner env vibe location latitude longitude).1 ∧
     Except.map AggregatedResponse.location_info
        (vibe_planner { env with youtube := fun _ => .error f }
          vibe location latitude longitude).1 =
       Except.map AggregatedResponse.location_info
        (vibe_planner env vibe location latitude longitude).1) ∧
    (Except.map AggregatedResponse.books
        (vibe_planner { env with books := fun _ => .error f }
          vibe location latitude longitude).1 = .ok [] ∧
     Except.map AggregatedResponse.spotify_playlists
        (vibe_planner { env with books := fun _ => .error f }
          vibe location latitude longitude).1 =
       Except.map AggregatedResponse.spotify_playlists
        (vibe_planner env vibe location latitude longitude).1 ∧
     Except.map AggregatedResponse.youtube_recipes
        (vibe_planner { env with books := fun _ => .error f }
          vibe location latitude longitude).1 =
       Except.map AggregatedResponse.youtube_recipes
        (vibe_planner env vibe location latitude longitude).1 ∧
     Except.map AggregatedResponse.movies
        (vibe_planner { env with books := fun _ => .error f }
          vibe location latitude longitude).1 =
       Except.map AggregatedResponse.movies
        (vibe_planner env vibe location latitude longitude).1 ∧
     Except.map AggregatedResponse.cafes
        (vibe_planner { env with books := fun _ => .error f }
          vibe location latitude longitude).1 =
       Except.map AggregatedResponse.cafes
        (vibe_planner env vibe location latitude longitude).1 ∧
     Except.map AggregatedResponse.location_info
        (vibe_planner { env with books := fun _ => .error f }
          vibe location latitude longitude).1 =
       Except.map AggregatedResponse.location_info
        (vibe_planner env vibe location latitude longitude).1) ∧
    (Except.map AggregatedResponse.movies
        (vibe_planner { env with omdb := fun _ => .error f }
          vibe location latitude longitude).1 = .ok [] ∧
     Except.map AggregatedResponse.spotify_playlists
        (vibe_planner { env with omdb := fun _ => .error f }
          vibe location latitude longitude).1 =
       Except.map AggregatedResponse.spotify_playlists
        (vibe_planner env vibe location latitude longitude).1 ∧
     Except.map AggregatedResponse.youtube_recipes
        (vibe_planner { env with omdb := fun _ => .error f }
          vibe location latitude longitude).1 =
       Except.map AggregatedResponse.youtube_recipes
        (vibe_planner env vibe location latitude longitude).1 ∧
     Except.map AggregatedResponse.books
        (vibe_planner { env with omdb := fun _ => .error f }
          vibe location latitude longitude).1 =
       Except.map AggregatedResponse.books
        (vibe_planner env vibe location latitude longitude).1 ∧
     Except.map AggregatedResponse.cafes
        (vibe_planner { env with omdb := fun _ => .error f }
          vibe location latitude longitude).1 =
       Except.map AggregatedResponse.cafes
        (vibe_planner env vibe location latitude longitude).1 ∧
     Except.map AggregatedResponse.location_info
        (vibe_planner { env with omdb := fun _ => .error f }
          vibe location latitude longitude).1 =
       Except.map AggregatedResponse.location_info
        (vibe_planner env vibe location latitude longitude).1) := by
  simp only [vibe_planner_not_blank h]
  exact ⟨⟨rfl, rfl, rfl, rfl, rfl, rfl⟩, ⟨rfl, rfl, rfl, rfl, rfl, rfl⟩,
    ⟨rfl, rfl, rfl, rfl, rfl, rfl⟩, ⟨rfl, rfl, rfl, rfl, rfl, rfl⟩⟩

theorem C1_provider_failure_isolated_witness :
    Except.map AggregatedResponse.spotify_playlists
      (vibe_planner { okEnv with spotify := fun _ => .error "boom" }
        "cozy" none none none).1 = .ok [] :=
  (C1_provider_failure_isolated okEnv "cozy" none none none "boom" (by decide)).1.1

/-- C5: when both latitude and longitude are supplied, the geocoder is
never invoked — even when a location name is also supplied — the cafe
fetch is invoked directly with the supplied coordinates, and the location
provenance is provided coordinates. -/
theorem C5_explicit_coordinates_win (env : Env) (vibe : String) (location : Option String)
    (la lo : Int) (h : isBlank vibe = false) :
    (∀ s, CallTag.geocode s ∉ (vibe_planner env vibe location (some la) (some lo)).2) ∧
    CallTag.places la lo ∈ (vibe_planner env vibe location (some la) (some lo)).2 ∧
    Except.map AggregatedResponse.location_info
      (vibe_planner env vibe location (some la) (some lo)).1 =
      .ok (.providedCoordinates la lo) ∧
    Except.map AggregatedResponse.cafes
      (vibe_planner env vibe location (some la) (some lo)).1 =
      .ok (isolate (env.places vibe la lo)) := by
  simp only [vibe_planner_not_blank h]
  refine ⟨?_, ?_, rfl, rfl⟩
  · intro s
    show CallTag.geocode s ∉
      [CallTag.spotify, CallTag.youtube, CallTag.books, CallTag.omdb, CallTag.places la lo]
    simp
  · show CallTag.places la lo ∈
      [CallTag.spotify, CallTag.youtube, CallTag.books, CallTag.omdb, CallTag.places la lo]
    simp

theorem C5_explicit_coordinates_win_witness :
    Except.map AggregatedResponse.location_info
      (vibe_planner geoEnv "cozy" (some "Seattle") (some 10) (some 20)).1 =
      .ok (.providedCoordinates 10 20) :=
  (C5_explicit_coordinates_win geoEnv "cozy" (some "Seattle") 10 20 (by decide)).2.2.1

/-- C6: when exactly one of latitude and longitude is supplied, the
partial coordinates are treated as absent: with a non-empty location
name the geocoder is invoked and, on success, the geocoded pair is what
the cafe fetch receives (with provenance geocoded); with no location
name the cafes result is empty and the geocoder is not invoked. -/
theorem C6_partial_coordinates (env : Env) (vibe : String) (latitude longitude : Option Int)
    (h : isBlank vibe = false)
    (hpart : (latitude.isSome = true ∧ longitude = none) ∨
             (latitude = none ∧ longitude.isSome = true)) :
    (∀ loc glat glng, loc.isEmpty = false → env.geocode loc = some (glat, glng) →
      CallTag.geocode loc ∈ (vibe_planner env vibe (some loc) latitude longitude).2 ∧
      CallTag.places glat glng ∈ (vibe_planner env vibe (some loc) latitude longitude).2 ∧
      Except.map AggregatedResponse.location_info
        (vibe_planner env vibe (some loc) latitude longitude).1 =
        .ok (.geocoded loc glat glng) ∧
      Except.map AggregatedResponse.cafes
        (vibe_planner env vibe (some loc) latitude longitude).1 =
        .ok (isolate (env.places vibe glat glng))) ∧
    (Except.map AggregatedResponse.cafes
        (vibe_planner env vibe none latitude longitude).1 = .ok [] ∧
     ∀ s, CallTag.geocode s ∉ (vibe_planner env vibe none latitude longitude).2) := by
  simp only [vibe_planner_not_blank h]
  have hnone : (latitude.isNone || longitude.isNone) = true := by
    rcases hpart with ⟨_, hlo⟩ | ⟨hla, _⟩
    · subst hlo; simp
    · subst hla; simp
  constructor
  · intro loc glat glng hloc hgeo
    simp only [vibe_planner_core, resolveLocation, truthyStr, hloc, hnone, Bool.not_false,
      Bool.and_self, if_true, Option.getD_some, hgeo, Bool.true_and]
    refine ⟨?_, ?_, rfl, rfl⟩ <;> simp
  · constructor
    · simp only [vibe_planner_core, resolveLocation, truthyStr, Bool.and_false]
      rcases hpart with ⟨_, hlo⟩ | ⟨hla, _⟩
      · subst hlo
        cases hla2 : latitude <;> simp [isolate, Except.map]
      · subst hla
        cases hlo2 : longitude <;> simp [isolate, Except.map]
    · intro s
      simp only [vibe_planner_core, resolveLocation, truthyStr, Bool.and_false]
      rcases hpart with ⟨_, hlo⟩ | ⟨hla, _⟩
      · subst hlo
        cases hla2 : latitude <;> simp
      · subst hla
        cases hlo2 : longitude <;> simp

theorem C6_partial_coordinates_witness :
    CallTag.geocode "Seattle" ∈
      (vibe_planner geoEnv "cozy" (some "Seattle") (some 10) none).2 :=
  ((C6_partial_coordinates geoEnv "cozy" (some 10) none (by decide)
    (Or.inl ⟨rfl, rfl⟩)).1 "Seattle" 47 (-122) (by decide) (by decide)).1

/-- The four outcomes of the location-handling phase: provided
coordinates, a geocoding success, a geocoding failure (leaving at least
one final coordinate absent), or no location request at all (with at
least one coordinate absent). -/
theorem resolveLocation_cases (geocode : String → Option (Int × Int)) (location : Option String)
    (latitude longitude : Option Int) :
    (∃ a b, resolveLocation geocode location latitude longitude =
        (some a, some b, .providedCoordinates a b, [])) ∨
    (∃ loc a b, resolveLocation geocode location latitude longitude =
        (some a, some b, .geocoded loc a b, [.geocode loc])) ∨
    (∃ loc, resolveLocation geocode location latitude longitude =
        (latitude, longitude, .failedGeocoding loc, [.geocode loc]) ∧
        (latitude = none ∨ longitude = none)) ∨
    (resolveLocation geocode location latitude longitude =
        (latitude, longitude, .empty, []) ∧ (latitude = none ∨ longitude = none)) := by
  by_cases hc : ((latitude.isNone || longitude.isNone) && truthyStr location) = true
  · have hor : latitude = none ∨ longitude = none := by
      have h1 := (Bool.and_eq_true _ _ ▸ hc).1
      rcases Bool.or_eq_true_iff.mp h1 with h2 | h2
      · exact Or.inl (Option.isNone_iff_eq_none.mp h2)
      · exact Or.inr (Option.isNone_iff_eq_none.mp h2)
    cases hg : geocode (location.getD "") with
    | some c =>
      refine Or.inr (Or.inl ⟨location.getD "", c.1, c.2, ?_⟩)
      simp [resolveLocation, hc, hg]
    | none =>
      refine Or.inr (Or.inr (Or.inl ⟨location.getD "", ?_, hor⟩))
      simp [resolveLocation, hc, hg]
  · cases latitude with
    | some la =>
      cases longitude with
      | some lo => exact Or.inl ⟨la, lo, by simp [resolveLocation, hc]⟩
      | none =>
        have hcf : truthyStr location = false := by simpa using hc
        exact Or.inr (Or.inr (Or.inr ⟨by simp [resolveLocation, hcf], Or.inr rfl⟩))
    | none =>
      cases longitude with
      | some lo =>
        have hcf : truthyStr location = false := by simpa using hc
        exact Or.inr (Or.inr (Or.inr ⟨by simp [resolveLocation, hcf], Or.inl rfl⟩))
      | none =>
        have hcf : truthyStr location = false := by simpa using hc
        exact Or.inr (Or.inr (Or.inr ⟨by simp [resolveLocation, hcf], Or.inl rfl⟩))

/-- C8: every response of vibe_planner carries a location provenance that
is one of exactly the four reachable values (provided coordinates,
geocoded, failed geocoding, or the empty location info standing for not
requested — the geocoding-exception dictionary of the source is dead
code); and whenever the provenance says no coordinates were available
(failed geocoding or not requested), the cafes result is empty. -/
theorem C8_provenance_values (env : Env) (vibe : String) (location : Option String)
    (latitude longitude : Option Int) (h : isBlank vibe = false) :
    ∃ r tr, vibe_planner env vibe location latitude longitude = (.ok r, tr) ∧
      ((∃ a b, r.location_info = .providedCoordinates a b) ∨
       (∃ loc a b, r.location_info = .geocoded loc a b) ∨
       (∃ loc, r.location_info = .failedGeocoding loc) ∨
       r.location_info = .empty) ∧
      (((∃ loc, r.location_info = .failedGeocoding loc) ∨ r.location_info = .empty) →
        r.cafes = []) := by
  rw [vibe_planner_not_blank h]
  refine ⟨_, _, rfl, ?_, ?_⟩
  · rcases resolveLocation_cases env.geocode location latitude longitude with
      ⟨a, b, hR⟩ | ⟨loc, a, b, hR⟩ | ⟨loc, hR, _⟩ | ⟨hR, _⟩
    · exact Or.inl ⟨a, b, by simp [vibe_planner_core, hR]⟩
    · exact Or.inr (Or.inl ⟨loc, a, b, by simp [vibe_planner_core, hR]⟩)
    · exact Or.inr (Or.inr (Or.inl ⟨loc, by simp [vibe_planner_core, hR]⟩))
    · exact Or.inr (Or.inr (Or.inr (by simp [vibe_planner_core, hR])))
  · intro hx
    rcases resolveLocation_cases env.geocode location latitude longitude with
      ⟨a, b, hR⟩ | ⟨loc, a, b, hR⟩ | ⟨loc, hR, hor⟩ | ⟨hR, hor⟩
    · rcases hx with ⟨loc2, hx⟩ | hx <;> simp [vibe_planner_core, hR] at hx
    · rcases hx with ⟨loc2, hx⟩ | hx <;> simp [vibe_planner_core, hR] at hx
    · rcases hor with hor | hor
      · subst hor
        cases hl2 : longitude <;> simp_all [vibe_planner_core, hR]
      · subst hor
        cases hl : latitude <;> simp_all [vibe_planner_core, hR]
    · rcases hor with hor | hor
      · subst hor
        cases hl2 : longitude <;> simp_all [vibe_planner_core, hR]
      · subst hor
        cases hl : latitude <;> simp_all [vibe_planner_core, hR]

theorem C8_provenance_values_witness :
    ∃ r tr, vibe_planner okEnv "cozy" none none none = (.ok r, tr) ∧
      ((∃ a b, r.location_info = .providedCoordinates a b) ∨
       (∃ loc a b, r.location_info = .geocoded loc a b) ∨
       (∃ loc, r.location_info = .failedGeocoding loc) ∨
       r.location_info = .empty) ∧
      (((∃ loc, r.location_info = .failedGeocoding loc) ∨ r.location_info = .empty) →
        r.cafes = []) :=
  C8_provenance_values okEnv "cozy" none none none (by decide)

end VibePlanner
